import Mathlib

/-!
Formal model of the `test-frontend` gateway (`test-frontend/app.py`).

The gateway is a Flask application that forwards browser requests to a remote
backend API. We embed it shallowly:

* JSON values are the inductive `Json` below; Python truthiness and
  `dict.get` are modelled by `Json.truthy` and `Json.get`.
* The remote backend (and the network) is an *oracle*: a function from the
  HTTP request the gateway builds to an outcome (`HttpOutcome`), which is
  either a response (status code plus parsed JSON body, `none` when the body
  is not valid JSON) or a transport-level exception
  (`requests.exceptions.RequestException`).
* Each Flask route handler becomes a pure function from the session, the
  request data and the oracle to the produced response, the updated session
  and the ordered list of backend HTTP requests it issued.
* The filesystem (used only by the upload route for its temporary file) is a
  list of existing paths.

Deliberate abstractions, each noted at its use site: template rendering
carries only the template name and the claim-relevant context; `datetime`
parsing is a parameter; Python `KeyError`/`AttributeError` on malformed
inputs outside the claims' scope are modelled by `null`/`none` defaults.
-/

namespace Gateway

/-- A parsed JSON value. Numbers are exact rationals (the payloads here use
only small literals such as `0.7`, `2048`, `-1`). -/
inductive Json where
  | null
  | bool (b : Bool)
  | num (q : ℚ)
  | str (s : String)
  | arr (elems : List Json)
  | obj (fields : List (String × Json))

namespace Json

/-- Python truthiness of a JSON value (`None`, `False`, `0`, `""`, `[]`, `{}`
are falsy, everything else truthy). -/
def truthy : Json → Bool
  | .null => false
  | .bool b => b
  | .num q => q ≠ 0
  | .str s => s ≠ ""
  | .arr xs => !xs.isEmpty
  | .obj fs => !fs.isEmpty

/-- Python `d.get(k)`: the value stored under `k`, or `none` when the key is
absent. On a non-dict value Python would raise `AttributeError`; the routes
only call `.get` on dict-shaped values for the inputs the claims range over,
and we return `none` there (see `handleOutcome` for the one place where this
coincides with the source's own `except` fallback). -/
def get : Json → String → Option Json
  | .obj fs, k => (fs.find? (fun p => p.1 == k)).map Prod.snd
  | _, _ => none

/-- Python `d.get(k, dflt)`. Note that a key stored with value `None` yields
`None`, not the default, exactly as in Python. -/
def getD (j : Json) (k : String) (dflt : Json) : Json := (j.get k).getD dflt

/-- Python `d[k]`. A missing key raises `KeyError` in Python; the claims only
range over inputs where the key is present, and we return `null` otherwise. -/
def item (j : Json) (k : String) : Json := j.getD k .null

/-- Python `v == s` for a string literal `s`: true exactly when `v` is that
string (values of other types compare unequal to a `str`). -/
def eqStr : Json → String → Bool
  | .str s, t => s == t
  | _, _ => false

/-- Python `d[k] = v` on a dict: replace in place when the key exists,
append otherwise; non-dicts are left unchanged (Python would raise). -/
def setKey : Json → String → Json → Json
  | .obj fs, k, v =>
      .obj (if fs.any (fun p => p.1 == k) then
              fs.map (fun p => if p.1 == k then (p.1, v) else p)
            else fs ++ [(k, v)])
  | j, _, _ => j

end Json

/-- The JSON failure payload `{'success': False, 'error': msg}` used
throughout the routes. -/
def jfail (msg : String) : Json :=
  .obj [("success", .bool false), ("error", .str msg)]

/-- HTTP methods the helper dispatches on (`app.py` lines 37-49; every call
site uses one of these four, so the unbound-variable path for other method
strings is unreachable). -/
inductive Method where
  | GET | POST | PUT | DELETE
deriving DecidableEq

/-- An HTTP request as the gateway hands it to the `requests` library:
URL, method, optional JSON body, whether a multipart file payload is
attached, and the header list actually sent. -/
structure HttpRequest where
  url : String
  method : Method
  body : Option Json
  files : Bool
  headers : List (String × String)

/-- What the network does with one request: a response (status code and the
body's JSON parse, `none` when the body is not valid JSON), or a
transport-level exception (`requests.exceptions.RequestException`: DNS
failure, connection refusal, timeout) carrying `str(e)`. -/
inductive HttpOutcome where
  | response (status : Nat) (body : Option Json)
  | exn (msg : String)

/-- The backend/network modelled as a function of the issued request. -/
def Oracle := HttpRequest → HttpOutcome

/-- Configured backend base URL (`app.py` line 16). -/
def BACKEND_URL : String := "https://apsara-backend.devshubh.me/api"

/-- Upload folder for temporary files (`app.py` line 17). -/
def UPLOAD_FOLDER : String := "static/uploads"

/-- Allowed upload extensions (`app.py` line 18). -/
def ALLOWED_EXTENSIONS : List String :=
  ["txt", "pdf", "png", "jpg", "jpeg", "gif", "mp3", "mp4", "wav", "ogg"]

/-- `allowed_file` (`app.py` lines 25-26): `'.' in filename` and the
lowercased text after the last dot (`filename.rsplit('.', 1)[1].lower()`) is
in the allow-list. Expressed over the character list (code point 46 is the
dot): the suffix after the last dot is the longest dot-free suffix. -/
def allowed_file (filename : String) : Bool :=
  filename.data.contains (Char.ofNat 46) &&
    ALLOWED_EXTENSIONS.contains (String.mk
      (((filename.data.reverse.takeWhile (fun c => c ≠ Char.ofNat 46)).reverse).map
        Char.toLower))

/-- Headers built by `make_backend_request` before dispatch (`app.py` lines
31-34): a JSON content type, plus a bearer token header when `token` is
truthy (in Python both `None` and the empty string are falsy). -/
def baseHeaders (token : Option String) : List (String × String) :=
  [("Content-Type", "application/json")] ++
    (match token with
     | some t => if t ≠ "" then [("Authorization", "Bearer " ++ t)] else []
     | none => [])

/-- Headers actually sent: the multipart branch (`POST` with files, `app.py`
line 42) pops the content type so that `requests` can set its own. -/
def sentHeaders (method : Method) (files : Bool) (token : Option String) :
    List (String × String) :=
  if method = Method.POST && files then
    (baseHeaders token).filter (fun p => p.1 ≠ "Content-Type")
  else baseHeaders token

/-- The request `make_backend_request` issues (`app.py` lines 30-49): URL is
the base URL joined with the endpoint stripped of leading slashes. -/
def buildRequest (endpoint : String) (method : Method) (data : Option Json)
    (files : Bool) (token : Option String) : HttpRequest :=
  { url := BACKEND_URL ++ "/" ++
      String.mk (endpoint.data.dropWhile (fun c => c = Char.ofNat 47))
    method := method
    body := data
    files := files
    headers := sentHeaders method files token }

/-- Placeholder for `str(e)` of the `JSONDecodeError` raised by
`response.json()` on an unparseable success body; in the `requests` version
in use this is a `RequestException`, so the outer handler converts it to a
network-error failure. No claim exercises this path. -/
def jsonDecodeErrMsg : String := "Expecting value"

/-- Outcome classification of `make_backend_request` (`app.py` lines 51-62):
status `>= 400` becomes `{'success': False, 'error': <best message>,
'status_code': code}` where the best message is the body's `error` field,
else its `message` field, else `HTTP <code> error` (a body that fails to
parse, or is not a dict, lands in the same generic message via the bare
`except`); any other status returns the parsed body; a
`RequestException` becomes `{'success': False, 'error': 'Network error:
<str(e)>'}`. -/
def handleOutcome : HttpOutcome → Json
  | .response status body =>
      if 400 ≤ status then
        Json.obj [("success", .bool false),
          ("error", ((body.bind (fun b => b.get "error")).getD
            ((body.bind (fun b => b.get "message")).getD
              (.str ("HTTP " ++ toString status ++ " error"))))),
          ("status_code", .num status)]
      else
        match body with
        | some j => j
        | none => jfail ("Network error: " ++ jsonDecodeErrMsg)
  | .exn msg => jfail ("Network error: " ++ msg)

/-- `make_backend_request` (`app.py` lines 28-62): build the request, let the
network act on it, classify the outcome. -/
def make_backend_request (oracle : Oracle) (endpoint : String) (method : Method)
    (data : Option Json := none) (files : Bool := false)
    (token : Option String := none) : Json :=
  handleOutcome (oracle (buildRequest endpoint method data files token))

/-- The session's `user` entry. In the source it is the backend's user dict;
the routes read only `['id']` and `['role']`, both strings in every backend
payload, so we model just those two fields. -/
structure User where
  id : String
  role : String

/-- The Flask session (a signed-cookie dict). `pending_email` keeps the raw
JSON value stored by the register route (`session['pending_email'] =
data['email']`). -/
structure Session where
  user : Option User := none
  token : Option String := none
  guest_limitations : Option Json := none
  pending_email : Option Json := none

/-- What a route hands back to the browser. `page` abstracts
`render_template` by the template name (the rendered context is not needed
by any claim); `sse` is the streaming route's fully consumed event stream,
as the ordered list of emitted frames. -/
inductive Response where
  | redirect (endpoint : String)
  | jsonR (j : Json)
  | page (template : String)
  | sse (frames : List String)

/-- A route's complete observable effect: browser response, updated session,
and the ordered list of backend HTTP requests issued. -/
abbrev RouteResult := Response × Session × List HttpRequest

/-- Abstract `datetime.fromisoformat`: applied to the `Z`-normalized
timestamp string; `none` models the `ValueError` branch (field set to
`None`), `some v` the parsed datetime, abstracted as an arbitrary value
since no claim inspects it. -/
abbrev IsoParse := String → Option Json

/-- One timestamp field conversion (`app.py` lines 176-185 and 224-245):
when the field is truthy and a string, replace it with the parse of the
string with `Z` rewritten to `+00:00`, or `None` on parse failure;
otherwise leave the record alone. -/
def convertTimestampField (parseIso : IsoParse) (record : Json) (key : String) : Json :=
  match record.get key with
  | some (.str s) =>
      if s ≠ "" then
        record.setKey key ((parseIso (s.replace "Z" "+00:00")).getD .null)
      else record
  | _ => record

/-- Convert both `createdAt` and `updatedAt` on one record. -/
def convertRecordTimestamps (parseIso : IsoParse) (record : Json) : Json :=
  convertTimestampField parseIso
    (convertTimestampField parseIso record "createdAt") "updatedAt"

/-- Convert timestamps on every record of a JSON array; a non-array value is
returned unchanged (in Python, iterating a non-list raises inside the
route's `try` and the partially converted value survives — no claim ranges
over non-array backend `data`). -/
def convertListTimestamps (parseIso : IsoParse) : Json → Json
  | .arr records => .arr (records.map (convertRecordTimestamps parseIso))
  | j => j

/-- The `register` route, POST branch (`app.py` lines 71-109). `data` is the
request's JSON body. Step `register` forwards name/email/password and on
success stores the email as pending; step `verify` forwards the pending
email (Python `session.get` yields `None` -> JSON `null` when absent)
plus the OTP, and on success pops the pending email. Any other step falls
through to rendering the registration page. -/
def register (oracle : Oracle) (sess : Session) (data : Json) : RouteResult :=
  if (data.getD "step" .null).eqStr "register" then
    let register_data : Json := .obj [
      ("fullName", data.item "fullName"),
      ("email", data.item "email"),
      ("password", data.item "password"),
      ("acceptTerms", .bool true)]
    let req := buildRequest "users/register" .POST (some register_data) false none
    let result := make_backend_request oracle "users/register" .POST (some register_data) false none
    if (result.getD "success" .null).truthy then
      (.jsonR (.obj [("success", .bool true), ("message", .str "OTP sent to your email")]),
       { sess with pending_email := some (data.item "email") }, [req])
    else
      (.jsonR (.obj [("success", .bool false),
        ("error", result.getD "error" (.str "Registration failed"))]), sess, [req])
  else if (data.getD "step" .null).eqStr "verify" then
    let verify_data : Json := .obj [
      ("email", (sess.pending_email).getD .null),
      ("otp", data.item "otp")]
    let req := buildRequest "users/verify-email" .POST (some verify_data) false none
    let result := make_backend_request oracle "users/verify-email" .POST (some verify_data) false none
    if (result.getD "success" .null).truthy then
      (.jsonR (.obj [("success", .bool true),
        ("message", .str "Registration completed successfully!")]),
       { sess with pending_email := none }, [req])
    else
      (.jsonR (.obj [("success", .bool false),
        ("error", result.getD "error" (.str "OTP verification failed"))]), sess, [req])
  else
    (.page "auth/register.html", sess, [])

/-- The `dashboard` route (`app.py` lines 155-194): requires a session user
(else redirect to the index page); fetches the user's conversations with the
stored token, converts their timestamps when the fetch succeeds, and renders
the dashboard either way (fetch failures only print). -/
def dashboard (oracle : Oracle) (parseIso : IsoParse) (sess : Session) : RouteResult :=
  match sess.user with
  | none => (.redirect "index", sess, [])
  | some user =>
    let endpoint := "conversations/" ++ user.id ++ "?limit=20"
    let req := buildRequest endpoint .GET none false sess.token
    let result := make_backend_request oracle endpoint .GET none false sess.token
    let _conversations :=
      if (result.getD "success" .null).truthy then
        convertListTimestamps parseIso (result.getD "data" (.arr []))
      else .arr []
    (.page "dashboard.html", sess, [req])

/-- The `conversation_view` route (`app.py` lines 196-251): requires a
session user; re-fetches the conversation list and scans it for the
requested id; if absent, flashes and redirects to the dashboard; otherwise
fetches the conversation's messages, converts timestamps, and renders. -/
def conversation_view (oracle : Oracle) (parseIso : IsoParse) (sess : Session)
    (conversation_id : String) : RouteResult :=
  match sess.user with
  | none => (.redirect "index", sess, [])
  | some user =>
    let endpoint := "conversations/" ++ user.id
    let req1 := buildRequest endpoint .GET none false sess.token
    let conversations_result := make_backend_request oracle endpoint .GET none false sess.token
    let conversation : Option Json :=
      if (conversations_result.getD "success" .null).truthy then
        match conversations_result.getD "data" (.arr []) with
        | .arr cs => cs.find? (fun c => (c.getD "conversationId" .null).eqStr conversation_id)
        | _ => none
      else none
    match conversation with
    | none => (.redirect "dashboard", sess, [req1])
    | some conv =>
      let endpoint2 := "conversations/" ++ conversation_id ++ "/messages"
      let req2 := buildRequest endpoint2 .GET none false sess.token
      let messages_result := make_backend_request oracle endpoint2 .GET none false sess.token
      let _messages :=
        if (messages_result.getD "success" .null).truthy then
          convertListTimestamps parseIso (messages_result.getD "data" (.arr []))
        else .arr []
      let _conv := convertRecordTimestamps parseIso conv
      (.page "conversation.html", sess, [req1, req2])

/-- Python `str.strip()` on the claim-relevant string fields (`title`,
`systemInstruction`); a non-string value would raise `AttributeError` in the
source and is outside every claim's range, modelled as the empty string. -/
def getStrippedField (data : Json) (key : String) : String :=
  match data.getD key (.str "") with
  | .str s => s.trim
  | _ => ""

/-- The `create_conversation` route (`app.py` lines 253-307): requires a
session user and a JSON body with a non-blank title; builds a fixed default
generation config (plus the stripped system instruction when non-blank) and
forwards; on success answers with the returned conversation id when present. -/
def create_conversation (oracle : Oracle) (sess : Session) (data : Option Json) : RouteResult :=
  match sess.user with
  | none => (.jsonR (jfail "Not authenticated"), sess, [])
  | some user =>
    match data with
    | none => (.jsonR (jfail "No data provided"), sess, [])
    | some data =>
      if !data.truthy then (.jsonR (jfail "No data provided"), sess, [])
      else
        let title := getStrippedField data "title"
        if title = "" then (.jsonR (jfail "Title is required"), sess, [])
        else
          let system_instruction := getStrippedField data "systemInstruction"
          let config : Json := .obj
            ([("model", .str "gemini-2.5-flash"),
              ("temperature", .num (7/10)),
              ("maxOutputTokens", .num 2048)] ++
             (if system_instruction ≠ "" then
                [("systemInstruction", .str system_instruction)] else []))
          let conversation_data : Json := .obj [
            ("userId", .str user.id),
            ("title", .str title),
            ("config", config)]
          let req := buildRequest "conversations" .POST (some conversation_data) false sess.token
          let result := make_backend_request oracle "conversations" .POST (some conversation_data) false sess.token
          if (result.getD "success" .null).truthy then
            let conversation_id := (result.getD "data" (.obj [])).getD "conversationId" .null
            if conversation_id.truthy then
              (.jsonR (.obj [("success", .bool true), ("conversationId", conversation_id)]),
               sess, [req])
            else
              (.jsonR (jfail "No conversation ID returned from backend"), sess, [req])
          else
            (.jsonR (.obj [("success", .bool false),
              ("error", result.getD "error" (.str "Failed to create conversation"))]), sess, [req])

/-- An incoming multipart upload request as the route reads it: whether a
`file` part is present, its filename and declared content type, and the two
optional form fields. -/
structure UploadRequest where
  filePresent : Bool
  filename : String
  contentType : String := ""
  storageMethod : Option String := none
  conversationId : Option String := none

/-- Placeholder for `str(e)` of the `KeyError`/`IndexError` raised at
`result['files'][0]` when a success response lacks a well-formed `files`
array (`app.py` line 352; the temp file is already removed at that point).
No claim inspects this message. -/
def uploadExtractErrMsg : String := "files"

/-- The `upload_file` route (`app.py` lines 309-369). Effects beyond the
response: the filesystem (a list of existing paths) gains the temporary file
at `file.save` and loses it again on every later path. `secure_name` stands
for werkzeug's `secure_filename`, `uuidStr` for the generated `uuid4`;
`inject` injects an unexpected exception inside the `try` block before the
`os.remove` call (an exception after it would only shorten nothing — the
file is already gone), landing in the `except` branch whose guarded cleanup
removes the file if it still exists. Note the backend call passes no
token (`app.py` line 346). -/
def upload_file (oracle : Oracle) (sess : Session) (ureq : UploadRequest)
    (secure_name : String → String) (uuidStr : String) (inject : Option String)
    (fs : List String) : Response × Session × List String × List HttpRequest :=
  match sess.user with
  | none => (.jsonR (jfail "Not authenticated"), sess, fs, [])
  | some user =>
    if !ureq.filePresent then (.jsonR (jfail "No file provided"), sess, fs, [])
    else if ureq.filename = "" then (.jsonR (jfail "No file selected"), sess, fs, [])
    else if !allowed_file ureq.filename then
      (.jsonR (jfail "File type not allowed"), sess, fs, [])
    else
      let filename := secure_name ureq.filename
      let temp_path := UPLOAD_FOLDER ++ "/" ++ uuidStr ++ "_" ++ filename
      let fs1 := fs ++ [temp_path]
      match inject with
      | some e =>
          let fs2 := if fs1.contains temp_path then fs1.filter (fun p => p ≠ temp_path) else fs1
          (.jsonR (jfail e), sess, fs2, [])
      | none =>
          let d : Json := .obj [
            ("storageMethod", .str (ureq.storageMethod.getD "google-file-api")),
            ("userId", .str user.id),
            ("conversationId", .str (ureq.conversationId.getD "")),
            ("displayName", .str filename)]
          let req := buildRequest "files/upload" .POST (some d) true none
          let result := make_backend_request oracle "files/upload" .POST (some d) true none
          let fs2 := fs1.filter (fun p => p ≠ temp_path)
          if (result.getD "success" .null).truthy then
            match result.get "files" with
            | some (.arr (uploaded :: _)) =>
                (.jsonR (.obj [("success", .bool true),
                  ("file", .obj [
                    ("id", uploaded.item "fileId"),
                    ("name", uploaded.item "originalName"),
                    ("size", uploaded.item "size"),
                    ("type", uploaded.item "mimeType")])]), sess, fs2, [req])
            | _ => (.jsonR (jfail uploadExtractErrMsg), sess, fs2, [req])
          else
            (.jsonR (.obj [("success", .bool false),
              ("error", result.getD "error" (.str "Upload failed"))]), sess, fs2, [req])

/-- Python `float()` on the config fields, abstracted: numbers map to
themselves, booleans to 1/0; other values would raise (or, for numeric
strings, parse) in the source — no claim depends on these fields. -/
def pyNum : Json → ℚ
  | .num q => q
  | .bool b => if b then 1 else 0
  | _ => 0

/-- Python `int()`: truncation toward zero of the coerced number. -/
def pyInt (j : Json) : Int := Int.tdiv (pyNum j).num ((pyNum j).den : Int)

/-- The `message_data` payload both send-message routes build (`app.py`
lines 380-398 and 441-459); they differ only in the `stream` field (the
buffered route uses `data.get('stream', False)`, the streaming route `True`)
and share the optional trailing `files` entry. -/
def messageData (user : User) (data : Json) (streamVal : Json) : Json :=
  let base : Json := .obj [
    ("userId", .str user.id),
    ("conversationId", data.item "conversationId"),
    ("contents", data.item "message"),
    ("model", data.getD "model" (.str "gemini-2.5-flash")),
    ("stream", streamVal),
    ("config", .obj [
      ("temperature", .num (pyNum (data.getD "temperature" (.num (7/10))))),
      ("maxOutputTokens", .num (pyInt (data.getD "maxTokens" (.num 2048)))),
      ("thinkingConfig", .obj [
        ("includeThoughts", data.getD "includeThoughts" (.bool true)),
        ("thinkingBudget", .num (pyInt (data.getD "thinkingBudget" (.num (-1)))))])])]
  if (data.getD "files" .null).truthy then base.setKey "files" (data.item "files") else base

/-- The `send_message` route (`app.py` lines 371-428): requires a session
user; forwards the payload with the stored token; on backend success, when
the user's role is `guest` and the response carries a truthy `usageInfo`
whose `guestLimits` is truthy, overwrites the session's guest-limitations
record from those counters (with the source's per-key defaults); answers
with the reshaped response, echoing the (possibly updated) stored record
for guests and `null` otherwise. -/
def send_message (oracle : Oracle) (sess : Session) (data : Json) : RouteResult :=
  match sess.user with
  | none => (.jsonR (jfail "Not authenticated"), sess, [])
  | some user =>
    let md := messageData user data (data.getD "stream" (.bool false))
    let req := buildRequest "ai/generate" .POST (some md) false sess.token
    let result := make_backend_request oracle "ai/generate" .POST (some md) false sess.token
    if (result.getD "success" .null).truthy then
      let sess1 :=
        if user.role = "guest" && (result.getD "usageInfo" .null).truthy then
          let guest_usage_info := (result.item "usageInfo").getD "guestLimits" (.obj [])
          if guest_usage_info.truthy then
            { sess with guest_limitations := some (.obj [
                ("totalMessagesLimit", guest_usage_info.getD "totalMessages" (.num 5)),
                ("totalMessagesUsed", guest_usage_info.getD "totalMessagesUsed" (.num 0)),
                ("remainingMessages", guest_usage_info.getD "remainingMessages" (.num 5))]) }
          else sess
        else sess
      (.jsonR (.obj [
        ("success", .bool true),
        ("userMessage", result.getD "userMessage" (.obj [])),
        ("aiResponse", result.getD "modelMessage" (.obj [])),
        ("thoughts", (result.get "thoughts").getD .null),
        ("metadata", .obj [
          ("tokens", result.getD "usageMetadata" (.obj [])),
          ("model", (result.get "model").getD .null),
          ("provider", (result.get "provider").getD .null)]),
        ("updatedGuestLimitations",
          if user.role = "guest" then (sess1.guest_limitations).getD .null else .null)]),
       sess1, [req])
    else
      (.jsonR (.obj [("success", .bool false),
        ("error", result.getD "error" (.str "Failed to send message"))]), sess, [req])

/-- Single-quote character, built by code point to keep the SSE frame
strings readable. -/
def sq : String := (Char.ofNat 39).toString

/-- The terminal sentinel frame the streaming generator always emits last
(`app.py` line 482). -/
def doneFrame : String := "data: [DONE]\n\n"

/-- One relayed server-sent-event data frame (`app.py` line 475). -/
def sseFrame (line : String) : String := "data: " ++ line ++ "\n\n"

/-- The frame for a non-200 backend status (`app.py` line 477): literally
`data: \x7b'error': 'Failed to generate response'\x7d` plus the blank line. -/
def failedGenFrame : String :=
  "data: \x7b" ++ sq ++ "error" ++ sq ++ ": " ++ sq ++
    "Failed to generate response" ++ sq ++ "\x7d\n\n"

/-- The frame for an exception in the generator (`app.py` line 480),
carrying `str(e)`. -/
def streamErrorFrame (msg : String) : String :=
  "data: \x7b" ++ sq ++ "error" ++ sq ++ ": " ++ sq ++
    "Stream error: " ++ msg ++ sq ++ "\x7d\n\n"

/-- How the backend stream behaves, from the generator's point of view:
a 200 response fully iterated (`ok`), a 200 response whose line iteration
raises after some lines (`okPartial`, e.g. a dropped connection mid-stream),
a non-200 status (`badStatus`), or an exception at/before the request
itself (`exn`). -/
inductive StreamOutcome where
  | ok (lines : List String)
  | okPartial (lines : List String) (errMsg : String)
  | badStatus (status : Nat)
  | exn (errMsg : String)

/-- The streaming backend modelled as a function of the issued request. -/
def StreamOracle := HttpRequest → StreamOutcome

/-- The relay loop (`app.py` lines 473-475): one data frame per truthy
(non-empty) line, in arrival order; empty keep-alive lines are skipped. -/
def relayLines : List String → List String
  | [] => []
  | l :: ls => if l ≠ "" then sseFrame l :: relayLines ls else relayLines ls

/-- The `generate_stream` generator (`app.py` lines 439-482), as the full
list of frames it yields for a given backend stream behaviour: the relayed
lines (and, per case, one error frame) followed by the sentinel, which sits
outside the `try`/`except` and is therefore always the final yield. -/
def generate_stream : StreamOutcome → List String
  | .ok ls => relayLines ls ++ [doneFrame]
  | .okPartial ls e => relayLines ls ++ [streamErrorFrame e, doneFrame]
  | .badStatus _ => [failedGenFrame, doneFrame]
  | .exn e => [streamErrorFrame e, doneFrame]

/-- The `send_message_stream` route (`app.py` lines 430-492): requires a
session user, then answers with the SSE response produced by
`generate_stream`. The backend call (hardcoded `localhost:3000` URL, raw
`requests.post` with only an `Authorization` header — `f'Bearer {token}'`
renders a missing token as the string `None`) is issued inside the
generator when the response body is consumed; we log it with the route. -/
def send_message_stream (soracle : StreamOracle) (sess : Session) (data : Json) : RouteResult :=
  match sess.user with
  | none => (.jsonR (jfail "Not authenticated"), sess, [])
  | some user =>
    let md := messageData user data (.bool true)
    let req : HttpRequest := {
      url := "http://localhost:3000/api/ai/generate"
      method := .POST
      body := some md
      files := false
      headers := [("Authorization", "Bearer " ++ sess.token.getD "None")] }
    (.sse (generate_stream (soracle req)), sess, [req])

/-- The `get_messages` route (`app.py` lines 494-508): authenticated
pass-through of the conversation's message list. -/
def get_messages (oracle : Oracle) (sess : Session) (conversation_id : String) : RouteResult :=
  match sess.user with
  | none => (.jsonR (jfail "Not authenticated"), sess, [])
  | some _user =>
    let endpoint := "conversations/" ++ conversation_id ++ "/messages"
    let req := buildRequest endpoint .GET none false sess.token
    let result := make_backend_request oracle endpoint .GET none false sess.token
    if (result.getD "success" .null).truthy then
      (.jsonR (.obj [("success", .bool true), ("messages", result.getD "data" (.arr []))]),
       sess, [req])
    else
      (.jsonR (.obj [("success", .bool false),
        ("error", result.getD "error" (.str "Failed to get messages"))]), sess, [req])

/-- The `delete_file` route (`app.py` lines 510-521): authenticated
pass-through; the backend's classified result is returned verbatim. -/
def delete_file (oracle : Oracle) (sess : Session) (file_id : String) : RouteResult :=
  match sess.user with
  | none => (.jsonR (jfail "Not authenticated"), sess, [])
  | some user =>
    let endpoint := "files/" ++ file_id ++ "?userId=" ++ user.id
    let req := buildRequest endpoint .DELETE none false sess.token
    let result := make_backend_request oracle endpoint .DELETE none false sess.token
    (.jsonR result, sess, [req])

/-- The `debug_session` route (`app.py` lines 523-533): dumps session
contents; makes no backend call. -/
def debug_session (sess : Session) : RouteResult :=
  match sess.user with
  | none => (.jsonR (.obj [("error", .str "Not authenticated")]), sess, [])
  | some user =>
    (.jsonR (.obj [
      ("user", .obj [("id", .str user.id), ("role", .str user.role)]),
      ("token", .str (sess.token.getD "No token")),
      ("guest_limitations", (sess.guest_limitations).getD .null)]), sess, [])

/-- The `test_backend` route (`app.py` lines 535-551): three probe calls —
note the `health` probe carries no token. -/
def test_backend (oracle : Oracle) (sess : Session) : RouteResult :=
  match sess.user with
  | none => (.jsonR (.obj [("error", .str "Not authenticated")]), sess, [])
  | some user =>
    let e2 := "conversations?userId=" ++ user.id ++ "&limit=5"
    let r1 := buildRequest "health" .GET none false none
    let t1 := make_backend_request oracle "health" .GET none false none
    let r2 := buildRequest e2 .GET none false sess.token
    let t2 := make_backend_request oracle e2 .GET none false sess.token
    let r3 := buildRequest "users/profile" .GET none false sess.token
    let t3 := make_backend_request oracle "users/profile" .GET none false sess.token
    (.jsonR (.obj [("health", t1), ("conversations_get", t2), ("user_profile", t3)]),
     sess, [r1, r2, r3])

/-- A backend call carries the bearer header for token `t`. -/
def hasBearer (t : String) (r : HttpRequest) : Prop :=
  ("Authorization", "Bearer " ++ t) ∈ r.headers

/-- Field `k` of a JSON response's payload (`none` for non-JSON responses
or an absent key). -/
def responseField (r : Response) (k : String) : Option Json :=
  match r with
  | .jsonR j => j.get k
  | _ => none

/-! Concrete fixtures used by witnesses and counterexamples. -/

/-- Backend answering every request with `404` and body `{"error":"not found"}`. -/
def oracle404 : Oracle :=
  fun _ => .response 404 (some (.obj [("error", .str "not found")]))

/-- Backend answering every request with a bare success body. -/
def oracleOk : Oracle :=
  fun _ => .response 200 (some (.obj [("success", .bool true)]))

/-- Backend refusing every connection. -/
def oracleRefused : Oracle := fun _ => .exn "Connection refused"

/-- Backend success response carrying guest usage counters. -/
def oracleGuest : Oracle :=
  fun _ => .response 200 (some (.obj [
    ("success", .bool true),
    ("usageInfo", .obj [("guestLimits", .obj [
      ("totalMessages", .num 5),
      ("totalMessagesUsed", .num 2),
      ("remainingMessages", .num 3)])])]))

/-- Streaming backend delivering two lines then a clean end of stream. -/
def streamOracle0 : StreamOracle := fun _ => .ok ["chunk1", "chunk2"]

/-- Timestamp parser that always fails (the claims never inspect parses). -/
def parse0 : IsoParse := fun _ => none

/-- An empty session (no user, no token). -/
def sess0 : Session := {}

/-- A regular logged-in user and their session. -/
def user1 : User := { id := "u1", role := "user" }

/-- A guest user. -/
def guest1 : User := { id := "g1", role := "guest" }

/-- Session of `user1` with a stored token. -/
def sessUser : Session := { user := some user1, token := some "tok1" }

/-- Session of `guest1` with a stored token and a stale usage record that a
fresh backend response must overwrite. -/
def sessGuest : Session :=
  { user := some guest1, token := some "tok1",
    guest_limitations := some (.obj [
      ("totalMessagesLimit", .num 5),
      ("totalMessagesUsed", .num 1),
      ("remainingMessages", .num 4)]) }

/-- A minimal send-message request body. -/
def dataMsg : Json := .obj [("conversationId", .str "c1"), ("message", .str "hi")]

/-- Upload request with an allow-listed extension. -/
def reqTxt : UploadRequest := { filePresent := true, filename := "notes.txt" }

/-- Upload request with a disallowed extension. -/
def reqExe : UploadRequest := { filePresent := true, filename := "virus.exe" }

/-- Upload request whose filename has no extension separator at all. -/
def reqNoDot : UploadRequest := { filePresent := true, filename := "README" }

/-- Upload request with an empty filename (a browser submits this when no
file was chosen in the form). -/
def reqEmptyName : UploadRequest := { filePresent := true, filename := "" }

/-! ## Theorems -/

/-- C1: the gateway's request helper classifies every backend outcome: a
status `>= 400` yields a failure record whose message is the body's `error`
field, else its `message` field, else the generic `HTTP <code> error` text,
together with the status code; a transport-level exception yields a failure
record with a network-error message; in particular a `404` with body
`{"error":"not found"}` yields the failure `"not found"` with status `404`.
No exception propagates: the helper is a total function of the outcome. -/
theorem C1_request_helper_classifies_failures (oracle : Oracle) (endpoint : String)
    (method : Method) (d : Option Json) (f : Bool) (tk : Option String) :
    (∀ status body, oracle (buildRequest endpoint method d f tk) = .response status body →
      400 ≤ status →
      make_backend_request oracle endpoint method d f tk =
        Json.obj [("success", .bool false),
          ("error", ((body.bind (fun b => b.get "error")).getD
            ((body.bind (fun b => b.get "message")).getD
              (.str ("HTTP " ++ toString status ++ " error"))))),
          ("status_code", .num status)])
    ∧ (∀ msg, oracle (buildRequest endpoint method d f tk) = .exn msg →
      make_backend_request oracle endpoint method d f tk =
        jfail ("Network error: " ++ msg))
    ∧ (oracle (buildRequest endpoint method d f tk) =
        .response 404 (some (.obj [("error", .str "not found")])) →
      make_backend_request oracle endpoint method d f tk =
        Json.obj [("success", .bool false), ("error", .str "not found"),
          ("status_code", .num 404)]) := by
  refine ⟨?_, ?_, ?_⟩
  · intro status body hresp hge
    simp [make_backend_request, hresp, handleOutcome, hge]
  · intro msg hresp
    simp [make_backend_request, hresp, handleOutcome]
  · intro hresp
    simp [make_backend_request, hresp, handleOutcome, Json.get]

/-- Witness for C1 at a concrete input: a backend answering `404` with body
`{"error":"not found"}` makes the helper return the failure record with
message `"not found"` and status code `404`. -/
theorem C1_witness :
    make_backend_request oracle404 "users/login" Method.POST none false none =
      Json.obj [("success", .bool false), ("error", .str "not found"),
        ("status_code", .num 404)] :=
  (C1_request_helper_classifies_failures oracle404 "users/login" Method.POST
    none false none).2.2 rfl

/-- C2: every route that requires authentication — dashboard, conversation
view, create conversation, upload file, send message (buffered and
streamed), get messages, delete file, and both debug routes — answers a
request with no `user` in the session by a failure response (a redirect for
the page routes, a JSON failure payload for the API routes), leaves the
session and filesystem untouched, and issues no backend HTTP request. -/
theorem C2_no_session_user_fails_without_backend_call (oracle : Oracle)
    (soracle : StreamOracle) (parseIso : IsoParse) (sess : Session)
    (hs : sess.user = none) (cid fid : String) (data : Json) (dataOpt : Option Json)
    (ureq : UploadRequest) (sn : String → String) (uu : String)
    (inj : Option String) (fs : List String) :
    dashboard oracle parseIso sess = (.redirect "index", sess, [])
    ∧ conversation_view oracle parseIso sess cid = (.redirect "index", sess, [])
    ∧ create_conversation oracle sess dataOpt = (.jsonR (jfail "Not authenticated"), sess, [])
    ∧ upload_file oracle sess ureq sn uu inj fs =
        (.jsonR (jfail "Not authenticated"), sess, fs, [])
    ∧ send_message oracle sess data = (.jsonR (jfail "Not authenticated"), sess, [])
    ∧ send_message_stream soracle sess data = (.jsonR (jfail "Not authenticated"), sess, [])
    ∧ get_messages oracle sess cid = (.jsonR (jfail "Not authenticated"), sess, [])
    ∧ delete_file oracle sess fid = (.jsonR (jfail "Not authenticated"), sess, [])
    ∧ debug_session sess = (.jsonR (.obj [("error", .str "Not authenticated")]), sess, [])
    ∧ test_backend oracle sess =
        (.jsonR (.obj [("error", .str "Not authenticated")]), sess, []) := by
  refine ⟨?_, ?_, ?_, ?_, ?_, ?_, ?_, ?_, ?_, ?_⟩ <;>
    simp [dashboard, conversation_view, create_conversation, upload_file,
      send_message, send_message_stream, get_messages, delete_file,
      debug_session, test_backend, hs]

/-- Witness for C2 at a concrete input: the empty session is rejected by the
dashboard (redirect) and by the buffered send route (JSON failure), with no
backend request issued. -/
theorem C2_witness :
    dashboard oracle404 parse0 sess0 = (.redirect "index", sess0, [])
    ∧ send_message oracle404 sess0 dataMsg =
        (.jsonR (jfail "Not authenticated"), sess0, []) :=
  ⟨(C2_no_session_user_fails_without_backend_call oracle404 streamOracle0 parse0
      sess0 rfl "c1" "f1" dataMsg none reqTxt id "uuid1" none []).1,
   (C2_no_session_user_fails_without_backend_call oracle404 streamOracle0 parse0
      sess0 rfl "c1" "f1" dataMsg none reqTxt id "uuid1" none []).2.2.2.2.1⟩

/-- C3: whenever the upload route gets far enough to write its temporary
file (authenticated session, file part present, non-empty allowed filename),
the temporary file is no longer on disk when the handler returns — whether
the forward succeeds, the backend reports failure, or an unexpected
exception is raised during forwarding. -/
theorem C3_temp_file_never_outlives_request (oracle : Oracle) (sess : Session)
    (user : User) (ureq : UploadRequest) (sn : String → String) (uu : String)
    (inj : Option String) (fs : List String)
    (hu : sess.user = some user) (hf : ureq.filePresent = true)
    (hn : ureq.filename ≠ "") (ha : allowed_file ureq.filename = true) :
    (UPLOAD_FOLDER ++ "/" ++ uu ++ "_" ++ sn ureq.filename) ∉
      (upload_file oracle sess ureq sn uu inj fs).2.2.1 := by
  simp only [upload_file, hu, hf, hn, ha, Bool.not_true, Bool.false_eq_true,
    if_false, if_neg hn]
  cases inj with
  | some e =>
      dsimp only
      have hc : (fs ++ [UPLOAD_FOLDER ++ "/" ++ uu ++ "_" ++ sn ureq.filename]).contains
          (UPLOAD_FOLDER ++ "/" ++ uu ++ "_" ++ sn ureq.filename) = true := by
        simp [List.elem_eq_mem]
      simp [hc, List.mem_filter]
  | none =>
      dsimp only
      split <;> try split
      all_goals simp [List.mem_filter]

/-- Witness for C3 at a concrete input: a backend-rejected upload of
`notes.txt` leaves the temporary file absent from an initially empty
filesystem. -/
theorem C3_witness :
    ("static/uploads" ++ "/" ++ "uuid1" ++ "_" ++ id "notes.txt") ∉
      (upload_file oracle404 sessUser reqTxt id "uuid1" none []).2.2.1 :=
  C3_temp_file_never_outlives_request oracle404 sessUser user1 reqTxt id "uuid1"
    none [] rfl rfl (by decide) (by decide)

/-- The relay loop emits exactly one data frame per non-empty line, in
arrival order. -/
theorem relayLines_eq_filter_map (ls : List String) :
    relayLines ls = (ls.filter (fun l => l ≠ "")).map sseFrame := by
  induction ls with
  | nil => rfl
  | cons l ls ih => by_cases h : l = "" <;> simp [relayLines, h, ih]

/-- C4: for every behaviour of the backend stream, the streaming generator
emits one data frame per non-empty backend line, in arrival order, and then
exactly one terminal `data: [DONE]` sentinel as the final frame; when the
backend answers a non-200 status, or the transport fails before or during
the relay, exactly one error frame precedes that sentinel. -/
theorem C4_stream_frames_in_order_then_sentinel (outcome : StreamOutcome) :
    generate_stream outcome =
      (match outcome with
        | .ok ls => (ls.filter (fun l => l ≠ "")).map sseFrame
        | .okPartial ls e => (ls.filter (fun l => l ≠ "")).map sseFrame ++ [streamErrorFrame e]
        | .badStatus _ => [failedGenFrame]
        | .exn e => [streamErrorFrame e]) ++ [doneFrame] := by
  cases outcome <;> simp [generate_stream, relayLines_eq_filter_map]

/-- C5: after a successful buffered send-message by a session whose role is
`guest`, when the backend response carries usage counters (a truthy
`usageInfo` whose `guestLimits` supplies all three counters), the session's
stored guest usage-limit record equals exactly those counters — total
allowed, used, remaining — overwriting whatever record was stored before
(`sess.guest_limitations` is arbitrary). -/
theorem C5_guest_limits_overwritten_from_response (oracle : Oracle) (sess : Session)
    (user : User) (data : Json) (res gl a b c : Json)
    (hu : sess.user = some user) (hrole : user.role = "guest")
    (hres : make_backend_request oracle "ai/generate" Method.POST
      (some (messageData user data (data.getD "stream" (Json.bool false)))) false
      sess.token = res)
    (hsucc : (res.getD "success" .null).truthy = true)
    (husage : (res.getD "usageInfo" .null).truthy = true)
    (hgl : (res.item "usageInfo").getD "guestLimits" (.obj []) = gl)
    (hglt : gl.truthy = true)
    (hta : gl.get "totalMessages" = some a)
    (htb : gl.get "totalMessagesUsed" = some b)
    (htc : gl.get "remainingMessages" = some c) :
    (send_message oracle sess data).2.1.guest_limitations =
      some (.obj [("totalMessagesLimit", a), ("totalMessagesUsed", b),
        ("remainingMessages", c)]) := by
  simp only [send_message, hu, hres, hrole]
  simp only [hsucc, husage, hgl, hglt]
  simp [Json.getD, hta, htb, htc]

/-- Witness for C5 at a concrete input: a guest session with a stale stored
record, after a backend success carrying counters (5, 2, 3), stores exactly
those counters. -/
theorem C5_witness :
    (send_message oracleGuest sessGuest dataMsg).2.1.guest_limitations =
      some (.obj [("totalMessagesLimit", .num 5), ("totalMessagesUsed", .num 2),
        ("remainingMessages", .num 3)]) :=
  C5_guest_limits_overwritten_from_response oracleGuest sessGuest guest1 dataMsg
    _ _ _ _ _ rfl rfl rfl rfl rfl rfl rfl rfl rfl rfl

/-- C9: after a successful buffered send-message by a session whose role is
not `guest`, the session (in particular its guest usage-limit record) is
unchanged and the JSON response's `updatedGuestLimitations` field is
`null`. -/
theorem C9_non_guest_leaves_limits_unchanged (oracle : Oracle) (sess : Session)
    (user : User) (data : Json) (res : Json)
    (hu : sess.user = some user) (hrole : user.role ≠ "guest")
    (hres : make_backend_request oracle "ai/generate" Method.POST
      (some (messageData user data (data.getD "stream" (Json.bool false)))) false
      sess.token = res)
    (hsucc : (res.getD "success" .null).truthy = true) :
    (send_message oracle sess data).2.1 = sess
    ∧ responseField (send_message oracle sess data).1 "updatedGuestLimitations" =
        some Json.null := by
  simp only [send_message, hu, hres]
  simp only [hsucc, hrole]
  refine ⟨by simp [hrole], ?_⟩
  simp [hrole, responseField, Json.get]

/-- Witness for C9 at a concrete input: a non-guest session is unchanged by
a successful send and the response echoes `null` usage limits. -/
theorem C9_witness :
    (send_message oracleOk sessUser dataMsg).2.1 = sessUser
    ∧ responseField (send_message oracleOk sessUser dataMsg).1
        "updatedGuestLimitations" = some Json.null :=
  C9_non_guest_leaves_limits_unchanged oracleOk sessUser user1 dataMsg _
    rfl (by decide) rfl rfl

/-- C8: an authenticated upload request with a file part whose filename has
an extension (text after its last dot, lowercased) outside the allow-list is
answered with the `File type not allowed` validation failure, with the
filesystem untouched (no temporary file written) and no backend request
issued. -/
theorem C8_disallowed_extension_rejected_before_save (oracle : Oracle)
    (sess : Session) (user : User) (ureq : UploadRequest) (sn : String → String)
    (uu : String) (inj : Option String) (fs : List String)
    (hu : sess.user = some user) (hf : ureq.filePresent = true)
    (hdot : ureq.filename.data.contains (Char.ofNat 46) = true)
    (hext : ALLOWED_EXTENSIONS.contains (String.mk
      (((ureq.filename.data.reverse.takeWhile (fun c => c ≠ Char.ofNat 46)).reverse).map
        Char.toLower)) = false) :
    upload_file oracle sess ureq sn uu inj fs =
      (.jsonR (jfail "File type not allowed"), sess, fs, []) := by
  have hn : ureq.filename ≠ "" := by
    intro he
    rw [he] at hdot
    exact absurd hdot (by decide)
  have ha : allowed_file ureq.filename = false := by
    unfold allowed_file
    rw [hext, Bool.and_false]
  simp [upload_file, hu, hf, hn, ha]

/-- Witness for C8 at a concrete input: uploading `virus.exe` is rejected
with no temporary file and no backend call. -/
theorem C8_witness :
    upload_file oracle404 sessUser reqExe id "uuid1" none [] =
      (.jsonR (jfail "File type not allowed"), sessUser, [], []) :=
  C8_disallowed_extension_rejected_before_save oracle404 sessUser user1 reqExe
    id "uuid1" none [] rfl rfl (by decide) (by decide)

/-- C10 counterexample: an upload request whose filename contains no dot is
not always answered with `File type not allowed` — the empty filename (what
a browser submits when no file is chosen) is caught earlier by the
`No file selected` check, a different failure. -/
theorem C10_counterexample_empty_filename :
    (upload_file oracle404 sessUser reqEmptyName id "uuid1" none []).1 =
      Response.jsonR (jfail "No file selected")
    ∧ Response.jsonR (jfail "No file selected") ≠
        Response.jsonR (jfail "File type not allowed") := by
  refine ⟨rfl, ?_⟩
  intro h
  simp [jfail] at h

/-- C10 (amended): an authenticated upload request with a file part whose
filename is non-empty and contains no dot fails `allowed_file` and is
answered with the same `File type not allowed` failure as a disallowed
extension, with no temporary file and no backend call. -/
theorem C10_no_dot_rejected_as_disallowed (oracle : Oracle) (sess : Session)
    (user : User) (ureq : UploadRequest) (sn : String → String) (uu : String)
    (inj : Option String) (fs : List String)
    (hu : sess.user = some user) (hf : ureq.filePresent = true)
    (hn : ureq.filename ≠ "")
    (hdot : ureq.filename.data.contains (Char.ofNat 46) = false) :
    upload_file oracle sess ureq sn uu inj fs =
      (.jsonR (jfail "File type not allowed"), sess, fs, []) := by
  have ha : allowed_file ureq.filename = false := by
    unfold allowed_file
    rw [hdot, Bool.false_and]
  simp [upload_file, hu, hf, hn, ha]

/-- Witness for C10 at a concrete input: uploading a file named `README`
(no extension separator) is rejected as a disallowed file type. -/
theorem C10_witness :
    upload_file oracle404 sessUser reqNoDot id "uuid1" none [] =
      (.jsonR (jfail "File type not allowed"), sessUser, [], []) :=
  C10_no_dot_rejected_as_disallowed oracle404 sessUser user1 reqNoDot id "uuid1"
    none [] rfl rfl (by decide) (by decide)

/-- C7 counterexample: the verify step does not fail merely because the
session holds no pending email — the route forwards `email = null` and
believes the backend, so with a backend that reports success the operation
succeeds even though `pending_email` is absent. -/
theorem C7_counterexample_verify_succeeds_without_pending_email :
    sess0.pending_email = none
    ∧ (register oracleOk sess0
        (.obj [("step", .str "verify"), ("otp", .str "123456")])).1 =
        Response.jsonR (.obj [("success", .bool true),
          ("message", .str "Registration completed successfully!")]) :=
  ⟨rfl, rfl⟩

/-- C7 (amended): the verify step forwards the session's pending email —
`null` when absent — together with the OTP, performing no local check that a
pending email is present; it succeeds exactly when the backend reports
success, in which case the pending email is cleared from the session, and
otherwise fails with the backend's error (defaulting to `OTP verification
failed`), leaving the session unchanged. -/
theorem C7_verify_outcome_follows_backend (oracle : Oracle) (sess : Session)
    (data : Json) (res : Json)
    (hstep : (data.getD "step" .null).eqStr "register" = false)
    (hstep2 : (data.getD "step" .null).eqStr "verify" = true)
    (hres : make_backend_request oracle "users/verify-email" Method.POST
      (some (.obj [("email", sess.pending_email.getD .null), ("otp", data.item "otp")]))
      false none = res) :
    ((res.getD "success" .null).truthy = true →
      register oracle sess data =
        (.jsonR (.obj [("success", .bool true),
          ("message", .str "Registration completed successfully!")]),
         { sess with pending_email := none },
         [buildRequest "users/verify-email" Method.POST
           (some (.obj [("email", sess.pending_email.getD .null),
             ("otp", data.item "otp")])) false none]))
    ∧ ((res.getD "success" .null).truthy = false →
      register oracle sess data =
        (.jsonR (.obj [("success", .bool false),
          ("error", res.getD "error" (.str "OTP verification failed"))]),
         sess,
         [buildRequest "users/verify-email" Method.POST
           (some (.obj [("email", sess.pending_email.getD .null),
             ("otp", data.item "otp")])) false none])) := by
  constructor <;> intro hcase <;> simp [register, hstep, hstep2, hres, hcase]

/-- Witness for the amended C7 at a concrete input: with no pending email
and a backend reporting success, the verify step succeeds, clears the
(already absent) pending email, and issued exactly the forwarded call with
a `null` email. -/
theorem C7_witness :
    register oracleOk sess0 (.obj [("step", .str "verify"), ("otp", .str "123456")]) =
      (.jsonR (.obj [("success", .bool true),
        ("message", .str "Registration completed successfully!")]),
       { sess0 with pending_email := none },
       [buildRequest "users/verify-email" Method.POST
         (some (.obj [("email", Json.null), ("otp", .str "123456")])) false none]) :=
  (C7_verify_outcome_follows_backend oracleOk sess0
    (.obj [("step", .str "verify"), ("otp", .str "123456")]) _ rfl rfl rfl).1 rfl

/-- Any non-multipart request built with a non-empty token carries its
bearer header. -/
theorem bearer_mem_buildRequest (e : String) (m : Method) (d : Option Json)
    (t : String) (ht : t ≠ "") :
    hasBearer t (buildRequest e m d false (some t)) := by
  simp [hasBearer, buildRequest, sentHeaders, baseHeaders, ht]

/-- The multipart upload request is built with no token, so after the
content-type header is popped its header list is empty. -/
theorem upload_request_headers_empty (e : String) (d : Option Json) :
    (buildRequest e Method.POST d true none).headers = [] := by
  simp [buildRequest, sentHeaders, baseHeaders]

/-- C6 counterexample: the claim fails for the file-upload backend call —
for a fully authenticated session with stored token `tok1`, the upload
route's backend request does not carry the bearer header (`app.py` line 346
passes no token to the request helper). -/
theorem C6_counterexample_upload_call_has_no_bearer :
    ¬ (∀ r ∈ (upload_file oracleOk sessUser reqTxt id "uuid1" none []).2.2.2,
        hasBearer "tok1" r) := by
  simp only [hasBearer]
  decide

/-- C6 (amended): every backend call made on behalf of an authenticated
session with a stored non-empty token — conversation listing (dashboard and
conversation view), conversation creation, message listing, AI generation
buffered and streaming, and file deletion — carries the bearer token header
built from the session's stored token; the file-upload backend call alone is
issued without any `Authorization` header. -/
theorem C6_bearer_token_on_all_calls_except_upload (oracle : Oracle)
    (soracle : StreamOracle) (parseIso : IsoParse) (sess : Session) (user : User)
    (t : String) (cid fid : String) (data : Json) (dataOpt : Option Json)
    (ureq : UploadRequest) (sn : String → String) (uu : String)
    (inj : Option String) (fs : List String)
    (hu : sess.user = some user) (htk : sess.token = some t) (htne : t ≠ "") :
    (∀ r ∈ (dashboard oracle parseIso sess).2.2, hasBearer t r)
    ∧ (∀ r ∈ (conversation_view oracle parseIso sess cid).2.2, hasBearer t r)
    ∧ (∀ r ∈ (create_conversation oracle sess dataOpt).2.2, hasBearer t r)
    ∧ (∀ r ∈ (send_message oracle sess data).2.2, hasBearer t r)
    ∧ (∀ r ∈ (send_message_stream soracle sess data).2.2, hasBearer t r)
    ∧ (∀ r ∈ (get_messages oracle sess cid).2.2, hasBearer t r)
    ∧ (∀ r ∈ (delete_file oracle sess fid).2.2, hasBearer t r)
    ∧ (∀ r ∈ (upload_file oracle sess ureq sn uu inj fs).2.2.2,
        ∀ v, ("Authorization", v) ∉ r.headers) := by
  have hb : ∀ e m d, hasBearer t (buildRequest e m d false (some t)) :=
    fun e m d => bearer_mem_buildRequest e m d t htne
  refine ⟨?_, ?_, ?_, ?_, ?_, ?_, ?_, ?_⟩
  · intro r hr
    simp only [dashboard, hu, htk] at hr
    simp at hr
    subst hr
    exact hb _ _ _
  · intro r hr
    simp only [conversation_view, hu, htk] at hr
    repeat' split at hr
    all_goals simp at hr
    all_goals try subst hr
    all_goals try rcases hr with rfl | rfl
    all_goals exact hb _ _ _
  · intro r hr
    simp only [create_conversation, hu, htk] at hr
    repeat' split at hr
    all_goals simp at hr
    all_goals try subst hr
    all_goals exact hb _ _ _
  · intro r hr
    simp only [send_message, hu, htk] at hr
    repeat' split at hr
    all_goals simp at hr
    all_goals try subst hr
    all_goals exact hb _ _ _
  · intro r hr
    simp only [send_message_stream, hu, htk] at hr
    simp at hr
    subst hr
    simp [hasBearer]
  · intro r hr
    simp only [get_messages, hu, htk] at hr
    repeat' split at hr
    all_goals simp at hr
    all_goals try subst hr
    all_goals exact hb _ _ _
  · intro r hr
    simp only [delete_file, hu, htk] at hr
    simp at hr
    subst hr
    exact hb _ _ _
  · intro r hr
    simp only [upload_file, hu] at hr
    repeat' split at hr
    all_goals simp at hr
    all_goals subst hr
    all_goals intro v
    all_goals rw [upload_request_headers_empty]
    all_goals exact List.not_mem_nil _

/-- Witness for the amended C6 at a concrete input: the dashboard's
conversation-listing request for session `sessUser` carries
`Authorization: Bearer tok1`. -/
theorem C6_witness :
    hasBearer "tok1" (buildRequest ("conversations/" ++ user1.id ++ "?limit=20")
      Method.GET none false (some "tok1")) :=
  (C6_bearer_token_on_all_calls_except_upload oracle404 streamOracle0 parse0
      sessUser user1 "tok1" "c1" "f1" dataMsg none reqTxt id "uuid1" none []
      rfl rfl (by decide)).1
    _ (List.mem_singleton.mpr rfl)

end Gateway
